import Mathlib

/-!
Verification development for the agent-team-playground backend.

This file gives a shallow embedding of the orchestration kernel of the
repository (task store, inbox store, protocol codec, tool executor, agent
turn engine, session stop) and proves or refutes the frozen claims about it.

Modelling conventions:
* Python JSON values are the inductive `JVal`; Python dicts are association
  lists with unique keys (`Dict`), with `dictSet` preserving insertion order
  exactly as CPython dicts do.
* The `text` field of an inbox message is either a plain string or a string
  that is the JSON serialization of a value; the type `PyText` records which,
  so `json.loads` is `PyText.loads`.
* Python timestamps (`datetime.utcnow().isoformat()`) are abstracted as an
  opaque string argument `now`; no claim inspects timestamps.
* Python exceptions are `PyErr`; a call of a function with a keyword argument
  the function does not declare raises `TypeError`, and an access to a static
  method a class does not define raises `AttributeError`.  The parameter lists
  and method lists of the relevant source classes are transcribed so these
  failures are checked, not asserted.
* SSE events are recorded as `(event type, agent)` pairs; no claim inspects
  event payloads, so payload dictionaries are not modelled.
-/

/-- JSON values, as produced by `json.loads` / consumed by `json.dumps`. -/
inductive JVal where
  | null
  | bool (b : Bool)
  | num (n : Int)
  | str (s : String)
  | arr (xs : List JVal)
  | obj (kvs : List (String × JVal))

/-- A Python dict with string keys, in insertion order, keys unique. -/
def Dict : Type := List (String × JVal)

/-- `d.get(k)`: first (unique) binding of `k`. -/
def dictGet : Dict → String → Option JVal
  | [], _ => none
  | (k0, v0) :: rest, k => if k0 = k then some v0 else dictGet rest k

/-- `k in d`. -/
def dictHasKey (d : Dict) (k : String) : Bool :=
  (dictGet d k).isSome

/-- `d[k] = v`: replace in place if the key exists, else append (CPython
insertion-order semantics). -/
def dictSet : Dict → String → JVal → Dict
  | [], k, v => [(k, v)]
  | (k0, v0) :: rest, k, v =>
    if k0 = k then (k0, v) :: rest else (k0, v0) :: dictSet rest k v

/-- Dict merge, as in building a dict literal with `**extra` last: keys of
`extra` override, new keys append in order. -/
def dictMerge (base extra : Dict) : Dict :=
  extra.foldl (fun d kv => dictSet d kv.1 kv.2) base

/-- Python truthiness of a JSON value. -/
def jTruthy : JVal → Bool
  | .null => false
  | .bool b => b
  | .num n => n != 0
  | .str s => s ≠ ""
  | .arr xs => !xs.isEmpty
  | .obj kvs => !kvs.isEmpty

/-- Truthiness of `d.get(k)` (missing key gives `None`, falsy). -/
def jTruthyOpt : Option JVal → Bool
  | none => false
  | some v => jTruthy v

/-- Python `v == s` for a string literal `s`: true only when `v` is the same
string (equality with a non-string JSON value is `False`). -/
def jEqStr : Option JVal → String → Bool
  | some (.str t), s => t = s
  | _, _ => false

mutual

/-- `json.dumps` (string escaping is not modelled; no claim inspects the
serialized form of a string containing quotes). -/
def JVal.dumps : JVal → String
  | .null => "null"
  | .bool true => "true"
  | .bool false => "false"
  | .num n => toString n
  | .str s => "\"" ++ s ++ "\""
  | .arr xs => "[" ++ JVal.dumpsElems xs ++ "]"
  | .obj kvs => "\x7b" ++ JVal.dumpsEntries kvs ++ "\x7d"

/-- Comma-separated serialization of array elements. -/
def JVal.dumpsElems : List JVal → String
  | [] => ""
  | [x] => JVal.dumps x
  | x :: xs => JVal.dumps x ++ ", " ++ JVal.dumpsElems xs

/-- Comma-separated serialization of object entries. -/
def JVal.dumpsEntries : List (String × JVal) → String
  | [] => ""
  | [(k, v)] => "\"" ++ k ++ "\": " ++ JVal.dumps v
  | (k, v) :: xs => "\"" ++ k ++ "\": " ++ JVal.dumps v ++ ", " ++ JVal.dumpsEntries xs

end

mutual

/-- Python `==` on JSON values. -/
def jvalBeq : JVal → JVal → Bool
  | .null, .null => true
  | .bool a, .bool b => a == b
  | .num a, .num b => a == b
  | .str a, .str b => a == b
  | .arr a, .arr b => jvalBeqList a b
  | .obj a, .obj b => jvalBeqObj a b
  | _, _ => false

/-- Elementwise equality of JSON arrays. -/
def jvalBeqList : List JVal → List JVal → Bool
  | [], [] => true
  | a :: as, b :: bs => jvalBeq a b && jvalBeqList as bs
  | _, _ => false

/-- Entrywise equality of JSON objects (Python dict equality is order
insensitive; entrywise suffices for the lists this model compares). -/
def jvalBeqObj : List (String × JVal) → List (String × JVal) → Bool
  | [], [] => true
  | (k1, v1) :: as, (k2, v2) :: bs => k1 == k2 && jvalBeq v1 v2 && jvalBeqObj as bs
  | _, _ => false

end

/-- The `text` field of an inbox message: either a plain string that is not
valid JSON, or the serialization of a JSON value. -/
inductive PyText where
  | plain (s : String)
  | json (v : JVal)

/-- `json.loads` on a message text: a plain text fails to parse, a serialized
value parses back to the value. -/
def PyText.loads : PyText → Option JVal
  | .plain _ => none
  | .json v => some v

/-- The underlying Python string of a text value. -/
def PyText.toStr : PyText → String
  | .plain s => s
  | .json v => v.dumps

/-- Truthiness of a text value as a Python string (a serialized JSON value is
never the empty string). -/
def PyText.truthy : PyText → Bool
  | .plain s => s ≠ ""
  | .json _ => true

/-- `text[:80]`. -/
def PyText.take80 : PyText → String
  | .plain s => s.take 80
  | .json v => v.dumps.take 80

/-- An inbox message, as written by `InboxStore.append_message` and
`ProtocolService.create_message` (src/comms/json_store.py lines 75 to 82,
src/services/protocol_service.py lines 21 to 28). -/
structure Msg where
  sender : String
  text : PyText
  summary : String
  timestamp : String
  color : Option String
  read : Bool

/-- All inboxes of a session: agent name to message list; a missing file reads
as the empty list, so the total function with default `[]` is the state. -/
def Inboxes : Type := String → List Msg

/-- Point update of one inbox. -/
def setInbox (ibs : Inboxes) (agent : String) (msgs : List Msg) : Inboxes :=
  fun a => if a = agent then msgs else ibs a

namespace InboxStore

/-- `read_all(agent)` (src/comms/json_store.py lines 49 to 52). -/
def read_all (ibs : Inboxes) (agent : String) : List Msg :=
  ibs agent

/-- Core of `read_unread` on one inbox file (src/comms/json_store.py lines
54 to 63): collect the unread messages; if there are any, set `read` on every
message and persist.  Returns (new file contents, unread returned). -/
def readUnreadList (messages : List Msg) : List Msg × List Msg :=
  let unread := messages.filter (fun m => !m.read)
  if unread.isEmpty then (messages, unread)
  else (messages.map (fun m => { m with read := true }), unread)

/-- `read_unread(agent)`: returns (new inboxes, unread messages). -/
def read_unread (ibs : Inboxes) (agent : String) : Inboxes × List Msg :=
  let res := readUnreadList (ibs agent)
  (setInbox ibs agent res.1, res.2)

/-- `append_message(agent, from_agent, text, summary, color, msg_type)`
(src/comms/json_store.py lines 65 to 87).  `summary or text[:80]` falls back
when `summary` is `None` or empty; `msg_type` is accepted and ignored by the
source, as here.  Returns (new inboxes, the message dict). -/
def append_message (ibs : Inboxes) (agent from_agent : String) (text : PyText)
    (summary : Option String) (color : Option String) (_msg_type : String)
    (now : String) : Inboxes × Msg :=
  let message : Msg :=
    { sender := from_agent
      text := text
      summary := match summary with
        | some s => if s = "" then text.take80 else s
        | none => text.take80
      timestamp := now
      color := color
      read := false }
  (setInbox ibs agent (ibs agent ++ [message]), message)

/-- `mark_read(agent, None)`: mark every message read (src/comms/json_store.py
lines 89 to 100, with `indices = None`). -/
def mark_read_all (ibs : Inboxes) (agent : String) : Inboxes :=
  setInbox ibs agent ((ibs agent).map (fun m => { m with read := true }))

end InboxStore

namespace ProtocolService

/-- The static methods the class `ProtocolService` actually defines
(src/services/protocol_service.py lines 11 to 109).  Note that
`create_shutdown_approved`, `create_task_assignment`, `create_task_completed`,
`create_plan_approval_request` and `create_plan_approval_response` are called
elsewhere in the source but are not defined here, so those accesses raise
`AttributeError`. -/
def method_names : List String :=
  ["create_message", "create_dm", "create_broadcast", "create_protocol_event",
   "create_shutdown_request", "create_idle_notification", "parse_protocol_message"]

/-- Parameters of `create_shutdown_request` (src/services/protocol_service.py
line 81): `from_agent` and `reason` only — no `target` parameter. -/
def create_shutdown_request_params : List String :=
  ["from_agent", "reason"]

/-- `create_message` (lines 13 to 28). -/
def create_message (from_agent : String) (text : PyText) (summary : Option String)
    (color : Option String) (now : String) : Msg :=
  { sender := from_agent
    text := text
    summary := match summary with
      | some s => if s = "" then text.take80 else s
      | none => text.take80
    timestamp := now
    color := color
    read := false }

/-- `create_protocol_event(event_type, from_agent, data)` (lines 57 to 78):
the message text is the serialized dict of type, from, timestamp merged with
`data`. -/
def create_protocol_event (event_type from_agent : String) (data : Dict)
    (now : String) : Msg :=
  let payload : Dict :=
    dictMerge
      [("type", .str event_type), ("from", .str from_agent), ("timestamp", .str now)]
      data
  create_message from_agent (.json (.obj payload))
    (some (event_type ++ " from " ++ from_agent)) none now

/-- `create_shutdown_request(from_agent, reason)` (lines 80 to 86). -/
def create_shutdown_request (from_agent reason : String) (now : String) : Msg :=
  create_protocol_event "shutdown_request" from_agent [("reason", .str reason)] now

/-- `create_idle_notification(from_agent, reason="available")` (lines 88
to 94). -/
def create_idle_notification (from_agent : String) (reason : String)
    (now : String) : Msg :=
  create_protocol_event "idle_notification" from_agent
    [("idleReason", .str reason)] now

/-- `parse_protocol_message(text)` (lines 96 to 109): the parsed dict if the
text is valid JSON whose value is a dict containing the key `type`, else
`None`. -/
def parse_protocol_message (text : PyText) : Option Dict :=
  match text.loads with
  | some (.obj kvs) => if dictHasKey kvs "type" then some kvs else none
  | _ => none

/-- The `AttributeError` raised by accessing an undefined static method. -/
def missingAttr (name : String) : String :=
  "type object ProtocolService has no attribute " ++ name

end ProtocolService

/-- Stable insertion into a sorted list (Python `sorted` is a stable sort; for
a total order on the keys the result is uniquely determined, so a stable
insertion sort gives the same list). -/
def insertLe (le : α → α → Bool) (x : α) : List α → List α
  | [] => [x]
  | y :: ys => if le x y then x :: y :: ys else y :: insertLe le x ys

/-- Stable sort by a boolean total preorder. -/
def sortLe (le : α → α → Bool) : List α → List α
  | [] => []
  | x :: xs => insertLe le x (sortLe le xs)

/-- Lexicographic comparison of char lists by code point, as Python compares
strings. -/
def charListLe : List Char → List Char → Bool
  | [], _ => true
  | _ :: _, [] => false
  | a :: as, b :: bs =>
    if a.toNat < b.toNat then true
    else if a.toNat = b.toNat then charListLe as bs
    else false

/-- Python `<=` on strings. -/
def pyStrLe (a b : String) : Bool := charListLe a.data b.data

/-- The on-disk state of the `TaskStore` of one session: the `.highwatermark`
counter and the task files `<id>.json` as an association list in creation
order (the order is irrelevant: every read sorts or looks up by id). -/
structure TaskState where
  hwm : Nat
  files : List (String × Dict)

/-- A fresh store: the constructor writes `.highwatermark = 0` and no task
files (src/comms/task_store.py lines 19 to 26). -/
def TaskState.init : TaskState := { hwm := 0, files := [] }

namespace TaskStore

/-- Parameters of `create_task` (src/comms/task_store.py lines 48 to 54):
`subject`, `description`, `owner`, `active_form` — no `metadata` parameter. -/
def create_task_params : List String :=
  ["subject", "description", "owner", "active_form"]

/-- Read the task file for `task_id`, `None` if the file does not exist
(src/comms/task_store.py lines 37 to 42). -/
def read_task : List (String × Dict) → String → Option Dict
  | [], _ => none
  | (i, t) :: rest, task_id => if i = task_id then some t else read_task rest task_id

/-- Write the task file for `task_id` (create or overwrite). -/
def write_task : List (String × Dict) → String → Dict → List (String × Dict)
  | [], task_id, task => [(task_id, task)]
  | (i, t) :: rest, task_id, task =>
    if i = task_id then (i, task) :: rest else (i, t) :: write_task rest task_id task

/-- Remove the task file for `task_id`; also reports whether it existed. -/
def unlink_task : List (String × Dict) → String → List (String × Dict) × Bool
  | [], _ => ([], false)
  | (i, t) :: rest, task_id =>
    if i = task_id then (rest, true)
    else
      let (rest2, existed) := unlink_task rest task_id
      ((i, t) :: rest2, existed)

/-- `_next_id` (src/comms/task_store.py lines 28 to 32): read the high
watermark, increment, write back, return the decimal string. -/
def next_id (st : TaskState) : TaskState × String :=
  ({ st with hwm := st.hwm + 1 }, toString (st.hwm + 1))

/-- Python `None`-or-string as a JSON value. -/
def optStr : Option String → JVal
  | none => .null
  | some s => .str s

/-- `create_task(subject, description, owner, active_form)`
(src/comms/task_store.py lines 48 to 69). -/
def create_task (st : TaskState) (subject : String) (description : String)
    (owner : Option String) (active_form : Option String) : TaskState × Dict :=
  let st1 := (next_id st).1
  let task_id := (next_id st).2
  let task : Dict :=
    [("id", .str task_id),
     ("subject", .str subject),
     ("description", .str description),
     ("status", .str "pending"),
     ("owner", optStr owner),
     ("blockedBy", .arr []),
     ("blocks", .arr []),
     ("activeForm", optStr active_form)]
  ({ st1 with files := write_task st1.files task_id task }, task)

/-- The update keys `update_task` copies straight into the task
(src/comms/task_store.py line 78).  `metadata` is not among them. -/
def allowed_fields : List String :=
  ["subject", "description", "status", "owner", "blockedBy", "blocks", "activeForm"]

/-- `list(set(existing + value))`: duplicates removed.  CPython set order is
unspecified; the model keeps the first occurrence of each element. -/
def listSetUnion (existing value : List JVal) : List JVal :=
  (existing ++ value).foldl
    (fun acc x => if acc.any (fun y => jvalBeq y x) then acc else acc ++ [x]) []

/-- One iteration of the update loop in `update_task`
(src/comms/task_store.py lines 79 to 87): `addBlockedBy` and `addBlocks`
with list values union into the existing sets, keys in `allowed_fields`
overwrite, and every other key — `metadata` included — is silently ignored. -/
def apply_update (task : Dict) (key : String) (value : JVal) : Dict :=
  match key, value with
  | "addBlockedBy", .arr xs =>
    let existing := match dictGet task "blockedBy" with
      | some (.arr ys) => ys
      | _ => []
    dictSet task "blockedBy" (.arr (listSetUnion existing xs))
  | "addBlocks", .arr xs =>
    let existing := match dictGet task "blocks" with
      | some (.arr ys) => ys
      | _ => []
    dictSet task "blocks" (.arr (listSetUnion existing xs))
  | _, _ =>
    if allowed_fields.contains key then dictSet task key value else task

/-- `update_task(task_id, updates)` (src/comms/task_store.py lines 71 to 90):
read the file, apply the updates in order, write the file back, return the
task; `None` when the id does not exist.  Nothing here deletes the file or
adds a `deleted` marker, whatever status is written. -/
def update_task (st : TaskState) (task_id : String) (updates : Dict) :
    TaskState × Option Dict :=
  match read_task st.files task_id with
  | none => (st, none)
  | some task =>
    let task := updates.foldl (fun t kv => apply_update t kv.1 kv.2) task
    ({ st with files := write_task st.files task_id task }, some task)

/-- `get_task(task_id)` (src/comms/task_store.py lines 92 to 95). -/
def get_task (st : TaskState) (task_id : String) : Option Dict :=
  read_task st.files task_id

/-- `list_tasks()` (src/comms/task_store.py lines 97 to 104): load every
`*.json` file in the order of `sorted(self.task_dir.glob("*.json"))`, which
compares the file names `<id>.json` as strings — a lexicographic, not numeric,
order. -/
def list_tasks (st : TaskState) : List Dict :=
  (sortLe (fun a b => pyStrLe (a.1 ++ ".json") (b.1 ++ ".json")) st.files).map
    (fun p => p.2)

/-- `delete_task(task_id)` (src/comms/task_store.py lines 106 to 113). -/
def delete_task (st : TaskState) (task_id : String) : TaskState × Bool :=
  let res := unlink_task st.files task_id
  ({ st with files := res.1 }, res.2)

end TaskStore

/-- One store-level operation of a session, for reasoning about sequences of
task operations. -/
inductive TaskOp where
  | createT (subject description : String) (owner active_form : Option String)
  | updateT (id : String) (updates : Dict)
  | deleteT (id : String)

/-- The id of a created task record. -/
def taskIdOf (task : Dict) : String :=
  match dictGet task "id" with
  | some (.str s) => s
  | _ => ""

/-- Run a sequence of task operations, collecting the ids assigned by
`create_task` in order. -/
def TaskStore.run_ops : TaskState → List TaskOp → TaskState × List String
  | st, [] => (st, [])
  | st, .createT s d o a :: rest =>
    let (st1, task) := TaskStore.create_task st s d o a
    let (st2, ids) := TaskStore.run_ops st1 rest
    (st2, taskIdOf task :: ids)
  | st, .updateT i u :: rest =>
    TaskStore.run_ops (TaskStore.update_task st i u).1 rest
  | st, .deleteT i :: rest =>
    TaskStore.run_ops (TaskStore.delete_task st i).1 rest

/-- The number of creates in a sequence of task operations. -/
def countCreates : List TaskOp → Nat
  | [] => 0
  | .createT _ _ _ _ :: rest => countCreates rest + 1
  | .updateT _ _ :: rest => countCreates rest
  | .deleteT _ :: rest => countCreates rest

/-- A raised Python exception, with `str(e)`. -/
inductive PyErr where
  | typeErr (msg : String)
  | attrErr (msg : String)

/-- `str(e)` of an exception. -/
def PyErr.msg : PyErr → String
  | .typeErr m => m
  | .attrErr m => m

/-- CPython keyword binding: the first keyword argument that is not a declared
parameter raises `TypeError`. -/
def unexpectedKwarg (fname : String) (params kwargs : List String) : Option PyErr :=
  match kwargs.find? (fun k => !params.contains k) with
  | some k => some (.typeErr (fname ++ "() got an unexpected keyword argument " ++ k))
  | none => none

/-- An emitted SSE event: event type and emitting agent.  Payloads are not
modelled (no claim inspects them). -/
structure Event where
  etype : String
  agent : String

/-- The mutable world the services of a session act on: the inbox files, the task
files and the stream of emitted events. -/
structure World where
  inboxes : Inboxes
  tasks : TaskState
  events : List Event

/-- Record one SSE event. -/
def World.emit (w : World) (etype agent : String) : World :=
  { w with events := w.events ++ [{ etype := etype, agent := agent }] }

/-- The per-agent configuration of an `AgentRunner` that the embedded code
paths read: its name, its parent (`lead_agent`) and its team roster
(src/services/agent_service.py lines 34 to 63). -/
structure Runner where
  agent_name : String
  lead_agent : Option String
  team_agents : List String

namespace AgentRunner

/-- `_on_task_changed` (src/services/agent_service.py lines 92 to 103): emit a
`task_update` event.  The optional history-sink mirror call is fire-and-forget
and out of scope. -/
def on_task_changed (r : Runner) (w : World) (_task : Dict) : World :=
  w.emit "task_update" r.agent_name

/-- `_on_task_completed` (src/services/agent_service.py lines 105 to 120):
when the agent has a parent distinct from itself the body immediately calls
`ProtocolService.create_task_completed`, which `ProtocolService` does not
define, so the access raises `AttributeError`; otherwise the body is a no-op. -/
def on_task_completed (r : Runner) (w : World) (_task : Dict) :
    World × Except PyErr Unit :=
  match r.lead_agent with
  | some lead =>
    if lead ≠ r.agent_name then
      (w, .error (.attrErr (ProtocolService.missingAttr "create_task_completed")))
    else (w, .ok ())
  | none => (w, .ok ())

/-- `_on_task_assigned` (src/services/agent_service.py lines 122 to 135): the
body immediately calls `ProtocolService.create_task_assignment`, which
`ProtocolService` does not define, so the access raises `AttributeError`
before any message is appended. -/
def on_task_assigned (_r : Runner) (w : World) (_owner : JVal) (_task : Dict) :
    World × Except PyErr Unit :=
  (w, .error (.attrErr (ProtocolService.missingAttr "create_task_assignment")))

/-- `_on_message_sent` (src/services/agent_service.py lines 137 to 148): emit
an `agent_message` event. -/
def on_message_sent (r : Runner) (w : World) (_to : String) (_m : Msg) : World :=
  w.emit "agent_message" r.agent_name

end AgentRunner

/-- Arguments of a `SendMessage` tool call after the `args.get` defaulting the
handler applies: `type` defaults to "message", `recipient`, `content` and
`request_id` to the empty value, `approve` to false; `summary = none` records
an absent key (src/services/tool_service.py lines 147 to 151, 175, 187). -/
structure SendMessageArgs where
  msgType : String
  recipient : String
  content : PyText
  summary : Option String
  request_id : String
  approve : Bool

/-- Arguments of a `TaskCreate` tool call: `subject` is required, `description`
defaults to the empty string, `activeForm` and `metadata` to `None`
(src/services/tool_service.py lines 227 to 231). -/
structure TaskCreateArgs where
  subject : String
  description : String
  activeForm : Option String
  metadata : Option JVal

/-- Arguments of a `TaskUpdate` tool call: the handler pops `taskId` and
passes the remaining argument dict to `update_task`
(src/services/tool_service.py lines 238 to 241). -/
structure TaskUpdateArgs where
  taskId : String
  updates : Dict

/-- A dispatched tool call, by tool name. -/
inductive ToolCallReq where
  | sendMessage (a : SendMessageArgs)
  | taskCreate (a : TaskCreateArgs)
  | taskUpdate (a : TaskUpdateArgs)
  | taskList
  | taskGet (taskId : String)
  | unknownTool (name : String)

namespace ToolExecutor

/-- The keyword arguments `_handle_TaskCreate` passes to `create_task`
(src/services/tool_service.py lines 227 to 232).  `metadata` is always among
them — `args.get("metadata")` yields `None` when absent, and the keyword is
passed either way. -/
def taskcreate_call_kwargs : List String :=
  ["subject", "description", "active_form", "metadata"]

/-- The keyword arguments the `shutdown_request` branch of
`_handle_SendMessage` passes to `create_shutdown_request`
(src/services/tool_service.py line 157). -/
def sendmessage_shutdown_call_kwargs : List String :=
  ["from_agent", "reason", "target"]

/-- `_handle_TaskCreate` (src/services/tool_service.py lines 226 to 235): the
call to `create_task` always carries the keyword `metadata`, which is not a
parameter of `create_task`, so binding raises `TypeError` and neither the
store write nor the `on_task_changed` callback is reached.  The unreachable
success branch is transcribed for reference. -/
def handle_TaskCreate (r : Runner) (w : World) (a : TaskCreateArgs) :
    World × Except PyErr JVal :=
  match unexpectedKwarg "create_task" TaskStore.create_task_params
      taskcreate_call_kwargs with
  | some e => (w, .error e)
  | none =>
    let (ts, task) := TaskStore.create_task w.tasks a.subject a.description
      none a.activeForm
    let w := { w with tasks := ts }
    let w := AgentRunner.on_task_changed r w task
    (w, .ok (.obj task))

/-- Exception sequencing for an awaited callback: an exception aborts the
rest of the handler (keeping the state reached so far); otherwise the handler
continues. -/
def seq_callback (res : World × Except PyErr Unit)
    (k : World → World × Except PyErr JVal) : World × Except PyErr JVal :=
  match res.2 with
  | .error e => (res.1, .error e)
  | .ok _ => k res.1

/-- `_handle_TaskUpdate` (src/services/tool_service.py lines 237 to 250).
The store write happens first; the callbacks then run in order
`on_task_changed`, `on_task_assigned`, `on_task_completed`, and an exception
in a callback aborts the rest while the store write persists. -/
def handle_TaskUpdate (r : Runner) (w : World) (a : TaskUpdateArgs) :
    World × Except PyErr JVal :=
  let owner := dictGet a.updates "owner"
  let new_status := dictGet a.updates "status"
  let upd := TaskStore.update_task w.tasks a.taskId a.updates
  let w := { w with tasks := upd.1 }
  match upd.2 with
  | none => (w, .ok (.obj [("error", .str ("Task " ++ a.taskId ++ " not found"))]))
  | some task =>
    let deleted := jTruthyOpt (dictGet task "deleted")
    let w := if !deleted then AgentRunner.on_task_changed r w task else w
    if jTruthyOpt owner && !deleted then
      seq_callback
        (AgentRunner.on_task_assigned r w ((dictGet task "owner").getD .null) task)
        (fun w2 =>
          if jEqStr new_status "completed" && !deleted then
            seq_callback (AgentRunner.on_task_completed r w2 task)
              (fun w3 => (w3, .ok (.obj task)))
          else (w2, .ok (.obj task)))
    else
      if jEqStr new_status "completed" && !deleted then
        seq_callback (AgentRunner.on_task_completed r w task)
          (fun w2 => (w2, .ok (.obj task)))
      else (w, .ok (.obj task))

/-- `_handle_TaskList` (src/services/tool_service.py lines 252 to 253). -/
def handle_TaskList (w : World) : World × Except PyErr JVal :=
  (w, .ok (.arr ((TaskStore.list_tasks w.tasks).map (fun d => .obj d))))

/-- `_handle_TaskGet` (src/services/tool_service.py lines 255 to 260). -/
def handle_TaskGet (w : World) (taskId : String) : World × Except PyErr JVal :=
  match TaskStore.get_task w.tasks taskId with
  | none => (w, .ok (.obj [("error", .str ("Task " ++ taskId ++ " not found"))]))
  | some task => (w, .ok (.obj task))

/-- The body of the broadcast loop of `_handle_SendMessage`
(src/services/tool_service.py lines 197 to 210): append the message to every
team agent except self, firing `on_message_sent` per recipient and collecting
the recipients. -/
def broadcast_step (r : Runner) (now : String) (content : PyText)
    (summary : String) (acc : World × List JVal) (agent : String) :
    World × List JVal :=
  if agent ≠ r.agent_name then
    let res := InboxStore.append_message acc.1.inboxes agent
      r.agent_name content (some summary) none "message" now
    let w1 := { acc.1 with inboxes := res.1 }
    let w1 := AgentRunner.on_message_sent r w1 agent res.2
    (w1, acc.2 ++ [.str agent])
  else acc

/-- `_handle_SendMessage` (src/services/tool_service.py lines 147 to 224).
The `shutdown_request` branch calls `create_shutdown_request` with the keyword
`target`, which is not a parameter, so it raises `TypeError`; the
`shutdown_response`, `plan_approval_request` and `plan_approval_response`
branches call static methods `ProtocolService` does not define, raising
`AttributeError`.  All four raise before appending anything. -/
def handle_SendMessage (r : Runner) (now : String) (w : World)
    (a : SendMessageArgs) : World × Except PyErr JVal :=
  let content := a.content
  let summary : String := match a.summary with
    | some s => s
    | none => if content.truthy then content.take80 else ""
  if a.msgType = "shutdown_request" then
    if a.recipient = "" then
      (w, .ok (.obj [("error", .str "recipient is required for shutdown_request")]))
    else
      match unexpectedKwarg "create_shutdown_request"
          ProtocolService.create_shutdown_request_params
          sendmessage_shutdown_call_kwargs with
      | some e => (w, .error e)
      | none =>
        let proto := ProtocolService.create_shutdown_request r.agent_name
          (if content.truthy then content.toStr else "requested by agent") now
        let w := { w with inboxes := (InboxStore.append_message w.inboxes
          a.recipient r.agent_name proto.text (some proto.summary) none
          "message" now).1 }
        let w := AgentRunner.on_message_sent r w a.recipient proto
        (w, .ok (.obj [("status", .str "shutdown_request_sent"),
                       ("to", .str a.recipient)]))
  else if a.msgType = "shutdown_response" then
    if a.recipient = "" then
      (w, .ok (.obj [("error", .str "recipient is required for shutdown_response")]))
    else
      (w, .error (.attrErr (ProtocolService.missingAttr "create_shutdown_approved")))
  else if a.msgType = "plan_approval_request" then
    if a.recipient = "" ∨ a.request_id = "" then
      (w, .ok (.obj [("error",
        .str "recipient and request_id are required for plan_approval_request")]))
    else
      (w, .error (.attrErr (ProtocolService.missingAttr "create_plan_approval_request")))
  else if a.msgType = "plan_approval_response" then
    if a.recipient = "" ∨ a.request_id = "" then
      (w, .ok (.obj [("error",
        .str "recipient and request_id are required for plan_approval_response")]))
    else
      (w, .error (.attrErr (ProtocolService.missingAttr "create_plan_approval_response")))
  else if a.msgType = "broadcast" then
    let out := r.team_agents.foldl (broadcast_step r now content summary) (w, [])
    (out.1, .ok (.obj [("status", .str "broadcast_sent"), ("sent_to", .arr out.2)]))
  else
    if a.recipient = "" then
      (w, .ok (.obj [("error", .str "recipient is required for type=message")]))
    else
      let res := InboxStore.append_message w.inboxes a.recipient
        r.agent_name content (some summary) none "message" now
      let w1 := { w with inboxes := res.1 }
      let w1 := AgentRunner.on_message_sent r w1 a.recipient res.2
      (w1, .ok (.obj [("status", .str "message_sent"), ("to", .str a.recipient)]))

/-- `ToolExecutor.execute` (src/services/tool_service.py lines 135 to 145):
dispatch by tool name; an unknown tool gives an error result; a dict or list
result is JSON-encoded; any exception is caught and encoded as an error
object.  State changes made before an exception persist. -/
def execute (r : Runner) (now : String) (w : World) (tc : ToolCallReq) :
    World × PyText :=
  let run : World × Except PyErr JVal :=
    match tc with
    | .sendMessage a => handle_SendMessage r now w a
    | .taskCreate a => handle_TaskCreate r w a
    | .taskUpdate a => handle_TaskUpdate r w a
    | .taskList => handle_TaskList w
    | .taskGet taskId => handle_TaskGet w taskId
    | .unknownTool name =>
      (w, .ok (.obj [("error", .str ("Unknown tool: " ++ name))]))
  match run with
  | (w1, .ok v) => (w1, .json v)
  | (w1, .error e) => (w1, .json (.obj [("error", .str e.msg)]))

end ToolExecutor

/-- Is this text a protocol envelope of the given type? -/
def isProtoType (t : PyText) (ptype : String) : Bool :=
  match ProtocolService.parse_protocol_message t with
  | some kvs => jEqStr (dictGet kvs "type") ptype
  | none => false

/-- The number of `idle_notification` envelopes from `sender` in a message
list. -/
def countIdleFrom (msgs : List Msg) (sender : String) : Nat :=
  (msgs.filter (fun m => isProtoType m.text "idle_notification" &&
    m.sender == sender)).length

/-- The number of `idle_notification` envelopes (any sender) in a message
list. -/
def countIdleAll (msgs : List Msg) : Nat :=
  (msgs.filter (fun m => isProtoType m.text "idle_notification")).length

namespace ContextBuilder

/-- The Python `str()` rendering of a JSON value inside an f-string (only the
string case is exercised by the claims). -/
def pyStrOf : JVal → String
  | .str s => s
  | .null => "None"
  | .bool true => "True"
  | .bool false => "False"
  | .num n => toString n
  | v => v.dumps

/-- The rendering of one unread inbox message inside `build_messages`
(src/services/context_service.py lines 179 to 187): a message whose text
parses as a protocol envelope is rendered as `[Protocol: <type> from
<sender>]`, dropping everything else; any other message is rendered with its
full text. -/
def render_inbox_part (m : Msg) : String :=
  match ProtocolService.parse_protocol_message m.text with
  | some protocol =>
    let ptype := pyStrOf ((dictGet protocol "type").getD (.str "unknown"))
    "[Protocol: " ++ ptype ++ " from " ++ m.sender ++ "]"
  | none => "[Message from " ++ m.sender ++ "]: " ++ m.text.toStr

/-- The inbox-consuming step of `build_messages` (src/services/context_service.py
lines 176 to 189): read-and-consume unread, render each message, join with
blank lines into one user message (none when there was nothing unread).  The
system prompt and history assembly read no mutable state except the task list,
which they do not modify, and no claim inspects their text. -/
def build_messages_inbox (w : World) (agent : String) : World × Option String :=
  let res := InboxStore.read_unread w.inboxes agent
  ({ w with inboxes := res.1 },
   if res.2.isEmpty then none
   else some (String.intercalate "\n\n" (res.2.map render_inbox_part)))

end ContextBuilder

/-- One provider reply: text content and tool calls.  Usage counters are not
modelled (no claim reads token totals). -/
structure LLMResponse where
  content : String
  toolCalls : List ToolCallReq

/-- The provider behaviour for a turn, abstracted as the reply (or raised
error) returned on the n-th loop iteration. -/
def ProviderScript : Type := Nat → Except String LLMResponse

/-- The result dict of `run_turn`. -/
structure TurnResult where
  shutdown : Bool
  loops : Nat
  content : String

namespace AgentRunner

/-- `MAX_TOOL_LOOPS` (src/services/agent_service.py line 27). -/
def MAX_TOOL_LOOPS : Nat := 10

/-- `_check_shutdown_request` (src/services/agent_service.py lines 175 to
200): scan the full inbox for the first unread message parsing as a
`shutdown_request` envelope.  When one is found and the agent has a parent,
the body calls `ProtocolService.create_shutdown_approved`, which
`ProtocolService` does not define, so the access raises `AttributeError`
before any message is appended or marked read.  When the agent has no parent,
it marks everything read via `read_unread` and reports true. -/
def check_shutdown_request (r : Runner) (w : World) : World × Except PyErr Bool :=
  let all_msgs := InboxStore.read_all w.inboxes r.agent_name
  match all_msgs.find? (fun m => !m.read && isProtoType m.text "shutdown_request") with
  | none => (w, .ok false)
  | some _m =>
    match r.lead_agent with
    | some _lead =>
      (w, .error (.attrErr (ProtocolService.missingAttr "create_shutdown_approved")))
    | none =>
      ({ w with inboxes := (InboxStore.read_unread w.inboxes r.agent_name).1 },
       .ok true)

/-- Does this tool call set the stop flag
(src/services/agent_service.py lines 279 to 280)? -/
def isShutdownSend : ToolCallReq → Bool
  | .sendMessage a => a.msgType == "shutdown_request"
  | _ => false

/-- Execute the tool calls of one provider reply in order
(src/services/agent_service.py lines 260 to 280): per call emit `tool_call`,
execute, emit `tool_result`, and accumulate the stop flag. -/
def run_tool_calls (r : Runner) (now : String) :
    World × Bool → List ToolCallReq → World × Bool
  | acc, [] => acc
  | (w, stop), tc :: rest =>
    let w := w.emit "tool_call" r.agent_name
    let (w, _result) := ToolExecutor.execute r now w tc
    let w := w.emit "tool_result" r.agent_name
    run_tool_calls r now (w, stop || isShutdownSend tc) rest

/-- The tool loop of `run_turn` (src/services/agent_service.py lines 224 to
285), with `fuel + loopCount = MAX_TOOL_LOOPS` so the head condition
`loop_count < MAX_TOOL_LOOPS and not should_stop` is `fuel > 0` and not
`shouldStop`.  A provider error emits `error` and breaks; a reply without
tool calls breaks.  The message and history lists the loop appends to affect
no store and no claim, and are not tracked. -/
def tool_loop (r : Runner) (now : String) (script : ProviderScript) :
    Nat → Nat → Bool → String → World → World × Nat × String
  | 0, loopCount, _, finalContent, w => (w, loopCount, finalContent)
  | _fuel + 1, loopCount, true, finalContent, w => (w, loopCount, finalContent)
  | fuel + 1, loopCount, false, finalContent, w =>
    let lc := loopCount + 1
    let w := w.emit "thinking" r.agent_name
    match script lc with
    | .error _e => (w.emit "error" r.agent_name, lc, finalContent)
    | .ok resp =>
      let w := if resp.content ≠ "" then w.emit "agent_response" r.agent_name else w
      let fc := if resp.content ≠ "" then resp.content else finalContent
      if resp.toolCalls.isEmpty then (w, lc, fc)
      else
        let out := run_tool_calls r now (w, false) resp.toolCalls
        tool_loop r now script fuel lc out.2 fc out.1

/-- `run_turn` (src/services/agent_service.py lines 202 to 313): shutdown
check (its `AttributeError` propagates), `turn_start`, context build
(consuming unread), the tool loop, `turn_end`, then the idle notification to
the parent when it exists and differs from self, and an unconditional
`protocol_message` event. -/
def run_turn (r : Runner) (now : String) (script : ProviderScript) (w : World) :
    World × Except PyErr TurnResult :=
  match check_shutdown_request r w with
  | (w1, .error e) => (w1, .error e)
  | (w1, .ok true) =>
    (w1.emit "turn_end" r.agent_name,
     .ok { shutdown := true, loops := 0, content := "" })
  | (w1, .ok false) =>
    let w2 := w1.emit "turn_start" r.agent_name
    let w3 := (ContextBuilder.build_messages_inbox w2 r.agent_name).1
    let out := tool_loop r now script MAX_TOOL_LOOPS 0 false "" w3
    let w5 := out.1.emit "turn_end" r.agent_name
    let w6 :=
      match r.lead_agent with
      | some lead =>
        if lead ≠ r.agent_name then
          let idle := ProtocolService.create_idle_notification r.agent_name
            "available" now
          { w5 with inboxes := (InboxStore.append_message w5.inboxes lead
              r.agent_name idle.text (some idle.summary) none "message" now).1 }
        else w5
      | none => w5
    let w7 := w6.emit "protocol_message" r.agent_name
    (w7, .ok { shutdown := false, loops := out.2.1, content := out.2.2 })

end AgentRunner

namespace TeamEngine

/-- The keyword arguments `stop` passes to `create_shutdown_request`
(src/services/orchestration_service.py line 354). -/
def stop_call_kwargs : List String :=
  ["from_agent", "reason", "target"]

/-- The per-agent loop of `stop` (src/services/orchestration_service.py lines
352 to 358): for each agent, build a shutdown envelope and append it.  The
call passes the keyword `target`, which `create_shutdown_request` does not
declare, so the first iteration raises `TypeError` and the loop aborts with
no inbox touched.  The unreachable success path is transcribed for
reference. -/
def stop_send_phase (now : String) : List String → World → World × Except PyErr Unit
  | [], w => (w, .ok ())
  | name :: rest, w =>
    match unexpectedKwarg "create_shutdown_request"
        ProtocolService.create_shutdown_request_params stop_call_kwargs with
    | some e => (w, .error e)
    | none =>
      let msg := ProtocolService.create_shutdown_request "system" "session ending" now
      stop_send_phase now rest { w with inboxes :=
        (InboxStore.append_message w.inboxes name "system" msg.text
          (some msg.summary) none "message" now).1 }

/-- `stop` (src/services/orchestration_service.py lines 348 to 369): set
running false (scheduler flag, not part of the store state), run the envelope
loop, then emit one `protocol_message` event and cancel the scheduler task.
The raised `TypeError` from the loop propagates before the event or the
cancellation. -/
def stop (agent_names : List String) (now : String) (w : World) :
    World × Except PyErr Unit :=
  match stop_send_phase now agent_names w with
  | (w1, .error e) => (w1, .error e)
  | (w1, .ok _) => (w1.emit "protocol_message" "", .ok ())

end TeamEngine

/-- A tool call whose execution appends no message that itself parses as an
`idle_notification` envelope: every `SendMessage` content is not such an
envelope (the other tools never append message content). -/
def sendIdleFree : ToolCallReq → Bool
  | .sendMessage a => !isProtoType a.content "idle_notification"
  | _ => true

/-- A provider script none of whose tool calls sends message content that
parses as an `idle_notification` envelope. -/
def benignScript (script : ProviderScript) : Prop :=
  ∀ n resp, script n = .ok resp → ∀ tc ∈ resp.toolCalls, sendIdleFree tc = true

/-- The inbox of the agent holds no unread `shutdown_request` envelope, so
`run_turn` is not a shutdown short-circuit (and does not hit the shutdown
`AttributeError` of that path). -/
def noUnreadShutdown (w : World) (agent : String) : Prop :=
  ∀ m ∈ w.inboxes agent, m.read = true ∨ isProtoType m.text "shutdown_request" = false

/-! Concrete fixtures for the claim evaluations. -/

/-- The empty session world: no inbox files, a fresh task store, no events. -/
def w0 : World := { inboxes := fun _ => [], tasks := TaskState.init, events := [] }

/-- A leader runner (no parent). -/
def rLead : Runner :=
  { agent_name := "lead", lead_agent := none, team_agents := ["lead", "worker"] }

/-- A worker runner reporting to `lead`. -/
def rWorker : Runner :=
  { agent_name := "worker", lead_agent := some "lead",
    team_agents := ["lead", "worker"] }

/-- A two-agent roster. -/
def sessionAgents : List String := ["alice", "bob"]

/-- A well-formed `shutdown_request` envelope from `system`, built by the
two-argument call that the source does define (as the repository test file
builds it at src/tests/test_protocol_integration.py line 573). -/
def shutdownEnvelope : Msg :=
  ProtocolService.create_shutdown_request "system" "session ending" "T0"

/-- A world in which the worker has one unread `shutdown_request`. -/
def wShut : World :=
  { inboxes := fun a => if a = "worker" then [shutdownEnvelope] else []
    tasks := TaskState.init
    events := [] }

/-- A provider that replies with empty content and no tool calls. -/
def dummyScript : ProviderScript := fun _ => .ok { content := "", toolCalls := [] }

/-- A task record on disk carrying a metadata map, as the data model of the spec
describes task files (`metadata: map<string, any>`). -/
def taskWithMetadata : Dict :=
  [("id", .str "1"),
   ("subject", .str "Write docs"),
   ("description", .str "Write the docs"),
   ("status", .str "pending"),
   ("owner", .null),
   ("blockedBy", .arr []),
   ("blocks", .arr []),
   ("activeForm", .null),
   ("metadata", .obj [("priority", .str "high"), ("source", .str "user")])]

/-- A store holding that one task. -/
def stMeta : TaskState := { hwm := 1, files := [("1", taskWithMetadata)] }

/-- The metadata update of the claim: `priority` overwritten, `source` mapped
to null, `tag` new. -/
def metadataUpdate : Dict :=
  [("metadata", .obj [("priority", .str "low"), ("source", .null), ("tag", .str "v2")])]

/-- A store holding one pending task, created by `create_task` itself. -/
def stPending : TaskState :=
  (TaskStore.create_task TaskState.init "Write docs" "Write the docs" none none).1

/-- The update of the claim: set status to deleted. -/
def deleteUpdate : Dict := [("status", .str "deleted")]

/-- Ten consecutive creates. -/
def tenOps : List TaskOp := List.replicate 10 (.createT "t" "" none none)

/-- The store after ten creates: tasks with ids 1 to 10. -/
def stTen : TaskState := (TaskStore.run_ops TaskState.init tenOps).1

/-- A message whose text is a JSON object with a `type` outside the seven
protocol types. -/
def weatherMsg : Msg :=
  { sender := "bob"
    text := .json (.obj [("type", .str "weather"), ("details", .str "sunny")])
    summary := "weather"
    timestamp := "T0"
    color := none
    read := false }

/-- A message text that is itself the JSON of an `idle_notification`
envelope. -/
def craftedIdleText : PyText :=
  .json (.obj [("type", .str "idle_notification"), ("from", .str "worker")])

/-- A provider whose first reply sends the crafted text to the parent as an
ordinary direct message, then stops. -/
def craftedScript : ProviderScript := fun n =>
  if n = 1 then
    .ok { content := ""
          toolCalls := [.sendMessage
            { msgType := "message", recipient := "lead",
              content := craftedIdleText, summary := some "status json",
              request_id := "", approve := false }] }
  else .ok { content := "done", toolCalls := [] }

/-- A plain unread user message. -/
def userMsg : Msg :=
  { sender := "user", text := .plain "please work", summary := "please work",
    timestamp := "T0", color := none, read := false }

/-- A world in which the worker has one unread plain message. -/
def wPlain : World :=
  { inboxes := fun a => if a = "worker" then [userMsg] else []
    tasks := TaskState.init
    events := [] }

/-- A provider that replies with text only. -/
def textOnlyScript : ProviderScript := fun _ => .ok { content := "hi", toolCalls := [] }

/-- The inbox evolution of a code path that appends no `idle_notification`
envelope anywhere: the count of such envelopes (per sender, and overall) is
unchanged in every inbox. -/
def IdlePreserved (old new : Inboxes) : Prop :=
  ∀ a s, countIdleFrom (new a) s = countIdleFrom (old a) s ∧
    countIdleAll (new a) = countIdleAll (old a)

/-! Supporting facts about the transcribed source interfaces. -/

/-- `create_task` declares no `metadata` parameter while `_handle_TaskCreate`
always passes one. -/
theorem create_task_lacks_metadata :
    TaskStore.create_task_params.contains "metadata" = false ∧
    ToolExecutor.taskcreate_call_kwargs.contains "metadata" = true := by
  exact ⟨rfl, rfl⟩

/-- `create_shutdown_request` declares no `target` parameter. -/
theorem create_shutdown_request_lacks_target :
    ProtocolService.create_shutdown_request_params.contains "target" = false := by
  exact rfl

/-- `ProtocolService` defines none of the four methods its callers also
use. -/
theorem protocol_service_missing_methods :
    (ProtocolService.method_names.contains "create_shutdown_approved" = false) ∧
    (ProtocolService.method_names.contains "create_task_assignment" = false) ∧
    (ProtocolService.method_names.contains "create_task_completed" = false) ∧
    (ProtocolService.method_names.contains "create_plan_approval_request" = false) := by
  exact ⟨rfl, rfl, rfl, rfl⟩

/-! Claim theorems. -/

/-- C1: refutation by evaluation.  Executing `TaskCreate` with a subject and
a description (no metadata) does not return the created task: the call of
`create_task` raises `TypeError` because `_handle_TaskCreate` always passes
the keyword `metadata`, which `create_task` does not declare; the executor
catches it into an error object, no task file is written, and
`on_task_changed` never fires (no `task_update` event). -/
theorem C1_taskcreate_always_errors :
    (ToolExecutor.execute rLead "T0" w0 (.taskCreate
      { subject := "Write tests", description := "Write integration tests",
        activeForm := none, metadata := none })).2
      = .json (.obj [("error",
          .str "create_task() got an unexpected keyword argument metadata")]) ∧
    (ToolExecutor.execute rLead "T0" w0 (.taskCreate
      { subject := "Write tests", description := "Write integration tests",
        activeForm := none, metadata := none })).1.tasks.files = [] ∧
    (ToolExecutor.execute rLead "T0" w0 (.taskCreate
      { subject := "Write tests", description := "Write integration tests",
        activeForm := none, metadata := none })).1.events = [] := by
  exact ⟨rfl, rfl, rfl⟩

/-- C2: refutation by evaluation.  `TeamEngine.stop` on a two-agent session
raises `TypeError` on the very first `create_shutdown_request` call (it passes
the keyword `target`, which the function does not declare), so no inbox of any agent receives a shutdown envelope and no `protocol_message` event is
emitted. -/
theorem C2_stop_raises_typeerror :
    (TeamEngine.stop sessionAgents "T0" w0).2
      = .error (.typeErr
          "create_shutdown_request() got an unexpected keyword argument target") ∧
    (TeamEngine.stop sessionAgents "T0" w0).1.inboxes "alice" = [] ∧
    (TeamEngine.stop sessionAgents "T0" w0).1.inboxes "bob" = [] ∧
    (TeamEngine.stop sessionAgents "T0" w0).1.events = [] := by
  exact ⟨rfl, rfl, rfl, rfl⟩

/-- C3: refutation by evaluation.  A worker with a parent and an unread
`shutdown_request` envelope: `run_turn` raises `AttributeError` (the class
`ProtocolService` defines no `create_shutdown_approved`), so no
`shutdown_approved` envelope reaches the parent, the messages of the worker stay
unread, and the turn does not return `shutdown=true`. -/
theorem C3_shutdown_check_raises :
    (AgentRunner.run_turn rWorker "T1" dummyScript wShut).2
      = .error (.attrErr
          "type object ProtocolService has no attribute create_shutdown_approved") ∧
    (AgentRunner.run_turn rWorker "T1" dummyScript wShut).1.inboxes "lead" = [] ∧
    (AgentRunner.run_turn rWorker "T1" dummyScript wShut).1.inboxes "worker"
      = [shutdownEnvelope] ∧
    shutdownEnvelope.read = false ∧
    (AgentRunner.run_turn rWorker "T1" dummyScript wShut).1.events = [] := by
  exact ⟨rfl, rfl, rfl, rfl, rfl⟩

/-- C4: refutation by evaluation.  Updating the task whose metadata is
`priority=high, source=user` with `metadata = (priority=low, source=null,
tag=v2)` leaves the record completely unchanged — `update_task` ignores the
`metadata` key (it is not in `allowed_fields` and has no merge branch), so the
resulting metadata is still `priority=high, source=user`, not
`priority=low, tag=v2`. -/
theorem C4_metadata_update_ignored :
    (TaskStore.update_task stMeta "1" metadataUpdate).2 = some taskWithMetadata ∧
    dictGet ((TaskStore.update_task stMeta "1" metadataUpdate).2.getD []) "metadata"
      = some (.obj [("priority", .str "high"), ("source", .str "user")]) := by
  exact ⟨rfl, rfl⟩

/-- C5: refutation by evaluation.  Setting the status of a task to `deleted` only
overwrites the status field: the task file is still on disk, the returned
record carries no `deleted=true` marker, and `list_tasks` still includes the
task. -/
theorem C5_deleted_status_not_purged :
    dictGet ((TaskStore.update_task stPending "1" deleteUpdate).2.getD []) "status"
      = some (.str "deleted") ∧
    dictGet ((TaskStore.update_task stPending "1" deleteUpdate).2.getD []) "deleted"
      = none ∧
    (TaskStore.read_task
      (TaskStore.update_task stPending "1" deleteUpdate).1.files "1").isSome = true ∧
    (TaskStore.list_tasks
      (TaskStore.update_task stPending "1" deleteUpdate).1).map taskIdOf = ["1"] := by
  exact ⟨rfl, rfl, rfl, rfl⟩

/-- C6: refutation by evaluation.  After ten creates (ids 1 to 10),
`list_tasks` returns the records in the lexicographic order of the file names
`1.json, 10.json, 2.json, ...`, not in numeric id order. -/
theorem C6_list_tasks_lexicographic :
    (TaskStore.list_tasks stTen).map taskIdOf
      = ["1", "10", "2", "3", "4", "5", "6", "7", "8", "9"] := by
  exact rfl

/-- `update_task` never touches the high watermark. -/
theorem update_task_hwm (st : TaskState) (i : String) (u : Dict) :
    (TaskStore.update_task st i u).1.hwm = st.hwm := by
  unfold TaskStore.update_task
  cases TaskStore.read_task st.files i <;> rfl

/-- `delete_task` never touches the high watermark. -/
theorem delete_task_hwm (st : TaskState) (i : String) :
    (TaskStore.delete_task st i).1.hwm = st.hwm := by
  unfold TaskStore.delete_task
  rfl

/-- The ids assigned by a sequence of task operations started at an arbitrary
high watermark `h` are the decimal strings of `h+1, h+2, ...`, one per
create. -/
theorem run_ops_ids (ops : List TaskOp) :
    ∀ st : TaskState, (TaskStore.run_ops st ops).2
      = (List.range' (st.hwm + 1) (countCreates ops)).map (fun n => toString n) := by
  induction ops with
  | nil => intro st; rfl
  | cons op rest ih =>
    intro st
    cases op with
    | createT s d o a =>
      show taskIdOf (TaskStore.create_task st s d o a).2
          :: (TaskStore.run_ops (TaskStore.create_task st s d o a).1 rest).2 = _
      rw [ih]
      have h1 : (TaskStore.create_task st s d o a).1.hwm = st.hwm + 1 := rfl
      have h2 : taskIdOf (TaskStore.create_task st s d o a).2
          = toString (st.hwm + 1) := rfl
      rw [h1, h2, countCreates, List.range'_succ, List.map_cons]
    | updateT i u =>
      show (TaskStore.run_ops (TaskStore.update_task st i u).1 rest).2 = _
      rw [ih, update_task_hwm]
      rfl
    | deleteT i =>
      show (TaskStore.run_ops (TaskStore.delete_task st i).1 rest).2 = _
      rw [ih, delete_task_hwm]
      rfl

/-- C7: confirmed.  Over any sequence of create, update and delete operations
in one session (fresh store, high watermark 0), the ids assigned by
`create_task` are exactly the decimal strings of 1, 2, ..., (number of
creates): a strictly increasing integer sequence starting at 1 with no id
ever assigned twice, deletions notwithstanding — updates and deletes never
touch the `.highwatermark` counter. -/
theorem C7_ids_strictly_increasing (ops : List TaskOp) :
    (TaskStore.run_ops TaskState.init ops).2
      = (List.range' 1 (countCreates ops)).map (fun n => toString n) := by
  simpa using run_ops_ids ops TaskState.init

/-- After `readUnreadList`, every stored message is read or the store was
already all-read. -/
theorem readUnreadList_all_read (messages : List Msg) :
    ((InboxStore.readUnreadList messages).1.filter (fun m => !m.read)) = [] := by
  unfold InboxStore.readUnreadList
  by_cases h : (messages.filter (fun m => !m.read)).isEmpty
  · simp only [h, if_pos]
    exact List.isEmpty_iff.mp h
  · simp only [h, if_neg, Bool.false_eq_true, not_false_eq_true]
    simp [List.filter_map]

/-- C8: confirmed.  Immediately after `read_unread(agent)`, a second
`read_unread` on the same agent (no intervening appends) returns the empty
list, and leaves the store unchanged: the first call persisted `read=true` on
every message whenever it returned anything. -/
theorem C8_read_unread_idempotent (ibs : Inboxes) (agent : String) :
    (InboxStore.read_unread (InboxStore.read_unread ibs agent).1 agent).2 = [] := by
  have hsnd : ∀ l : List Msg,
      (InboxStore.readUnreadList l).2 = l.filter (fun m => !m.read) := by
    intro l
    by_cases h : (l.filter (fun m => !m.read)).isEmpty <;>
      simp [InboxStore.readUnreadList, h]
  show (InboxStore.readUnreadList ((InboxStore.read_unread ibs agent).1 agent)).2 = []
  rw [hsnd]
  have hpt : (InboxStore.read_unread ibs agent).1 agent
      = (InboxStore.readUnreadList (ibs agent)).1 := by
    show setInbox ibs agent (InboxStore.readUnreadList (ibs agent)).1 agent = _
    simp [setInbox]
  rw [hpt]
  exact readUnreadList_all_read (ibs agent)

/-- C10: confirmed.  `parse_protocol_message(text)` returns a parsed object
exactly when the text is valid JSON whose top level is an object containing
the key `type` — the value of `type` is unrestricted, so a message whose text
is the JSON object with type `weather` (not one of the seven protocol types)
is classified as a protocol envelope, and the `build_messages` inbox renderer
shows it as `[Protocol: weather from bob]`, omitting the rest of its
content. -/
theorem C10_parse_iff_and_render :
    (∀ t : PyText, (ProtocolService.parse_protocol_message t).isSome ↔
      ∃ kvs, t.loads = some (JVal.obj kvs) ∧ dictHasKey kvs "type" = true) ∧
    (ProtocolService.parse_protocol_message weatherMsg.text).isSome = true ∧
    ContextBuilder.render_inbox_part weatherMsg = "[Protocol: weather from bob]" := by
  refine ⟨?_, rfl, rfl⟩
  intro t
  constructor
  · intro h
    unfold ProtocolService.parse_protocol_message at h
    cases ht : t.loads with
    | none => rw [ht] at h; simp at h
    | some v =>
      cases v with
      | obj kvs =>
        refine ⟨kvs, rfl, ?_⟩
        rw [ht] at h
        by_cases hk : dictHasKey kvs "type"
        · exact hk
        · simp [hk] at h
      | null => rw [ht] at h; simp at h
      | bool b => rw [ht] at h; simp at h
      | num n => rw [ht] at h; simp at h
      | str s => rw [ht] at h; simp at h
      | arr xs => rw [ht] at h; simp at h
  · rintro ⟨kvs, hl, hk⟩
    unfold ProtocolService.parse_protocol_message
    rw [hl]
    simp [hk]

/-- Emitting an event leaves every inbox unchanged. -/
theorem emit_inboxes (w : World) (t a : String) : (w.emit t a).inboxes = w.inboxes := by
  rfl

/-- `IdlePreserved` is reflexive. -/
theorem idlePreserved_refl (ibs : Inboxes) : IdlePreserved ibs ibs := by
  intro a s
  exact ⟨rfl, rfl⟩

/-- `IdlePreserved` composes. -/
theorem idlePreserved_trans {i1 i2 i3 : Inboxes}
    (h1 : IdlePreserved i1 i2) (h2 : IdlePreserved i2 i3) : IdlePreserved i1 i3 := by
  intro a s
  exact ⟨(h2 a s).1.trans (h1 a s).1, (h2 a s).2.trans (h1 a s).2⟩

/-- Flipping read flags does not change idle-envelope counts (per sender). -/
theorem countIdleFrom_map_read (msgs : List Msg) (s : String) :
    countIdleFrom (msgs.map (fun m => { m with read := true })) s
      = countIdleFrom msgs s := by
  unfold countIdleFrom
  rw [List.filter_map, List.length_map]
  rfl

/-- Flipping read flags does not change idle-envelope counts (overall). -/
theorem countIdleAll_map_read (msgs : List Msg) :
    countIdleAll (msgs.map (fun m => { m with read := true }))
      = countIdleAll msgs := by
  unfold countIdleAll
  rw [List.filter_map, List.length_map]
  rfl

/-- Appending a non-idle message does not change the per-sender count. -/
theorem countIdleFrom_append (msgs : List Msg) (m : Msg) (s : String)
    (h : isProtoType m.text "idle_notification" = false) :
    countIdleFrom (msgs ++ [m]) s = countIdleFrom msgs s := by
  unfold countIdleFrom
  rw [List.filter_append]
  simp [h]

/-- Appending a non-idle message does not change the overall count. -/
theorem countIdleAll_append (msgs : List Msg) (m : Msg)
    (h : isProtoType m.text "idle_notification" = false) :
    countIdleAll (msgs ++ [m]) = countIdleAll msgs := by
  unfold countIdleAll
  rw [List.filter_append]
  simp [h]

/-- Appending an idle envelope from `s` raises the per-sender count by one. -/
theorem countIdleFrom_append_idle (msgs : List Msg) (m : Msg) (s : String)
    (h : isProtoType m.text "idle_notification" = true) (hs : m.sender = s) :
    countIdleFrom (msgs ++ [m]) s = countIdleFrom msgs s + 1 := by
  unfold countIdleFrom
  rw [List.filter_append]
  simp [h, hs]

/-- The stored list after `readUnreadList`, written out. -/
theorem readUnreadList_fst (l : List Msg) :
    (InboxStore.readUnreadList l).1
      = if (l.filter (fun m => !m.read)).isEmpty then l
        else l.map (fun m => { m with read := true }) := by
  unfold InboxStore.readUnreadList
  by_cases h : (l.filter (fun m => !m.read)).isEmpty <;> simp [h]

/-- `read_unread` preserves idle counts in every inbox. -/
theorem idle_read_unread (ibs : Inboxes) (agent : String) :
    IdlePreserved ibs (InboxStore.read_unread ibs agent).1 := by
  intro a s
  by_cases ha : a = agent
  · subst ha
    have h1 : (InboxStore.read_unread ibs a).1 a
        = (InboxStore.readUnreadList (ibs a)).1 := by
      show setInbox ibs a (InboxStore.readUnreadList (ibs a)).1 a = _
      simp [setInbox]
    rw [h1, readUnreadList_fst]
    by_cases h : ((ibs a).filter (fun m => !m.read)).isEmpty
    · rw [if_pos h]
      exact ⟨rfl, rfl⟩
    · rw [if_neg h]
      exact ⟨countIdleFrom_map_read (ibs a) s, countIdleAll_map_read (ibs a)⟩
  · have h1 : (InboxStore.read_unread ibs agent).1 a = ibs a := by
      show setInbox ibs agent (InboxStore.readUnreadList (ibs agent)).1 a = _
      simp [setInbox, ha]
    rw [h1]
    exact ⟨rfl, rfl⟩

/-- `append_message` with a non-idle text preserves idle counts in every
inbox. -/
theorem idle_append_message (ibs : Inboxes) (agent from_agent : String)
    (text : PyText) (summary : Option String) (color : Option String)
    (mt now : String) (h : isProtoType text "idle_notification" = false) :
    IdlePreserved ibs
      (InboxStore.append_message ibs agent from_agent text summary color mt now).1 := by
  intro a s
  by_cases ha : a = agent
  · subst ha
    have h1 : (InboxStore.append_message ibs a from_agent text summary color mt now).1 a
        = ibs a ++
          [(InboxStore.append_message ibs a from_agent text summary color mt now).2] := by
      show setInbox ibs a (ibs a ++
        [(InboxStore.append_message ibs a from_agent text summary color mt now).2]) a = _
      unfold setInbox
      simp
    rw [h1]
    exact ⟨countIdleFrom_append _ _ _ h, countIdleAll_append _ _ h⟩
  · have h1 : (InboxStore.append_message ibs agent from_agent text summary color mt now).1 a
        = ibs a := by
      show setInbox ibs agent _ a = _
      simp [setInbox, ha]
    rw [h1]
    exact ⟨rfl, rfl⟩

/-- The `shutdown_request` branch of `_handle_SendMessage` passes the keyword
`target`, which `create_shutdown_request` does not declare. -/
theorem sendmessage_shutdown_kwarg :
    unexpectedKwarg "create_shutdown_request"
      ProtocolService.create_shutdown_request_params
      ToolExecutor.sendmessage_shutdown_call_kwargs
      = some (.typeErr
          "create_shutdown_request() got an unexpected keyword argument target") := by
  rfl

/-- `_handle_TaskCreate` never touches the inboxes (the reachable path raises
before the store call). -/
theorem taskcreate_inboxes (r : Runner) (w : World) (a : TaskCreateArgs) :
    (ToolExecutor.handle_TaskCreate r w a).1.inboxes = w.inboxes := by
  rfl

/-- `_handle_TaskUpdate` never touches the inboxes: the update writes the task
file, the `task_update` event only appends to the event stream, and the
assignment and completion callbacks raise `AttributeError` before appending
any message. -/
theorem taskupdate_inboxes (r : Runner) (w : World) (a : TaskUpdateArgs) :
    (ToolExecutor.handle_TaskUpdate r w a).1.inboxes = w.inboxes := by
  have hassign : ∀ (w2 : World) (o : JVal) (task : Dict),
      (AgentRunner.on_task_assigned r w2 o task).1 = w2 := fun _ _ _ => rfl
  have hcompl : ∀ (w2 : World) (task : Dict),
      (AgentRunner.on_task_completed r w2 task).1.inboxes = w2.inboxes := by
    intro w2 task
    unfold AgentRunner.on_task_completed
    cases r.lead_agent with
    | none => rfl
    | some lead =>
      show (if lead ≠ r.agent_name
          then (w2, Except.error
            (PyErr.attrErr (ProtocolService.missingAttr "create_task_completed")))
          else (w2, Except.ok ())).1.inboxes = w2.inboxes
      split <;> rfl
  have hseq : ∀ (res : World × Except PyErr Unit)
      (k : World → World × Except PyErr JVal) (X : Inboxes),
      res.1.inboxes = X → (∀ w2, w2.inboxes = X → (k w2).1.inboxes = X) →
      (ToolExecutor.seq_callback res k).1.inboxes = X := by
    intro res k X h1 h2
    unfold ToolExecutor.seq_callback
    cases hres : res.2 with
    | error e => simpa using h1
    | ok u => exact h2 res.1 h1
  simp only [ToolExecutor.handle_TaskUpdate]
  cases hupd : (TaskStore.update_task w.tasks a.taskId a.updates).2 with
  | none => rfl
  | some task =>
    dsimp only
    by_cases h1 : (jTruthyOpt (dictGet a.updates "owner")
        && !jTruthyOpt (dictGet task "deleted")) = true
    · rw [if_pos h1]
      apply hseq
      · rw [hassign]
        split <;> rfl
      · intro w2 hw2
        by_cases h2 : (jEqStr (dictGet a.updates "status") "completed"
            && !jTruthyOpt (dictGet task "deleted")) = true
        · rw [if_pos h2]
          exact hseq _ _ _ (by rw [hcompl]; exact hw2) (fun w3 hw3 => hw3)
        · rw [if_neg h2]
          exact hw2
    · rw [if_neg h1]
      by_cases h2 : (jEqStr (dictGet a.updates "status") "completed"
          && !jTruthyOpt (dictGet task "deleted")) = true
      · rw [if_pos h2]
        apply hseq
        · rw [hcompl]
          split <;> rfl
        · exact fun w2 hw2 => hw2
      · rw [if_neg h2]
        split <;> rfl

/-- The broadcast loop preserves idle counts (the appended text is the
`content`, assumed non-idle). -/
theorem broadcast_fold_idle (r : Runner) (now : String) (content : PyText)
    (summary : String) (h : isProtoType content "idle_notification" = false) :
    ∀ (agents : List String) (acc : World × List JVal),
      IdlePreserved acc.1.inboxes
        ((agents.foldl (ToolExecutor.broadcast_step r now content summary) acc).1).inboxes := by
  intro agents
  induction agents with
  | nil => intro acc; exact idlePreserved_refl _
  | cons agent rest ih =>
    intro acc
    show IdlePreserved acc.1.inboxes
      ((rest.foldl (ToolExecutor.broadcast_step r now content summary)
        (ToolExecutor.broadcast_step r now content summary acc agent)).1).inboxes
    refine idlePreserved_trans ?_ (ih _)
    unfold ToolExecutor.broadcast_step AgentRunner.on_message_sent
    by_cases ha : agent ≠ r.agent_name
    · rw [if_pos ha]
      exact idle_append_message acc.1.inboxes agent r.agent_name content
        (some summary) none "message" now h
    · rw [if_neg ha]
      exact idlePreserved_refl _

/-- `_handle_SendMessage` with non-idle content preserves idle counts: the
plain and broadcast branches append only the content, and every protocol
branch raises (or returns an error object) before appending. -/
theorem sendmessage_idle (r : Runner) (now : String) (w : World)
    (a : SendMessageArgs) (h : isProtoType a.content "idle_notification" = false) :
    IdlePreserved w.inboxes (ToolExecutor.handle_SendMessage r now w a).1.inboxes := by
  unfold ToolExecutor.handle_SendMessage AgentRunner.on_message_sent
  by_cases h1 : a.msgType = "shutdown_request"
  · rw [if_pos h1]
    by_cases h2 : a.recipient = ""
    · rw [if_pos h2]; exact idlePreserved_refl _
    · rw [if_neg h2, sendmessage_shutdown_kwarg]
      exact idlePreserved_refl _
  · rw [if_neg h1]
    by_cases h2 : a.msgType = "shutdown_response"
    · rw [if_pos h2]
      by_cases h3 : a.recipient = ""
      · rw [if_pos h3]; exact idlePreserved_refl _
      · rw [if_neg h3]; exact idlePreserved_refl _
    · rw [if_neg h2]
      by_cases h3 : a.msgType = "plan_approval_request"
      · rw [if_pos h3]
        by_cases h4 : a.recipient = "" ∨ a.request_id = ""
        · rw [if_pos h4]; exact idlePreserved_refl _
        · rw [if_neg h4]; exact idlePreserved_refl _
      · rw [if_neg h3]
        by_cases h4 : a.msgType = "plan_approval_response"
        · rw [if_pos h4]
          by_cases h5 : a.recipient = "" ∨ a.request_id = ""
          · rw [if_pos h5]; exact idlePreserved_refl _
          · rw [if_neg h5]; exact idlePreserved_refl _
        · rw [if_neg h4]
          by_cases h5 : a.msgType = "broadcast"
          · rw [if_pos h5]
            exact broadcast_fold_idle r now a.content _ h r.team_agents _
          · rw [if_neg h5]
            by_cases h6 : a.recipient = ""
            · rw [if_pos h6]; exact idlePreserved_refl _
            · rw [if_neg h6]
              exact idle_append_message w.inboxes a.recipient r.agent_name
                a.content
                (some (match a.summary with
                  | some s => s
                  | none => if a.content.truthy = true then a.content.take80 else ""))
                none "message" now h

/-- `execute` returns the world its handler produced, whether the handler
returned or raised. -/
theorem execute_fst_sendMessage (r : Runner) (now : String) (w : World)
    (a : SendMessageArgs) :
    (ToolExecutor.execute r now w (.sendMessage a)).1
      = (ToolExecutor.handle_SendMessage r now w a).1 := by
  unfold ToolExecutor.execute
  cases hres : (ToolExecutor.handle_SendMessage r now w a).2 with
  | ok v =>
    show (match ToolExecutor.handle_SendMessage r now w a with
      | (w1, .ok v) => (w1, PyText.json v)
      | (w1, .error e) => (w1, .json (.obj [("error", .str e.msg)]))).1 = _
    rw [show ToolExecutor.handle_SendMessage r now w a
      = ((ToolExecutor.handle_SendMessage r now w a).1, .ok v) from by
        rw [← hres]]
  | error e =>
    show (match ToolExecutor.handle_SendMessage r now w a with
      | (w1, .ok v) => (w1, PyText.json v)
      | (w1, .error e) => (w1, .json (.obj [("error", .str e.msg)]))).1 = _
    rw [show ToolExecutor.handle_SendMessage r now w a
      = ((ToolExecutor.handle_SendMessage r now w a).1, .error e) from by
        rw [← hres]]

/-- Executing a tool call that sends no idle-notification content preserves
idle counts in every inbox. -/
theorem execute_idle (r : Runner) (now : String) (w : World) (tc : ToolCallReq)
    (h : sendIdleFree tc = true) :
    IdlePreserved w.inboxes (ToolExecutor.execute r now w tc).1.inboxes := by
  cases tc with
  | sendMessage a =>
    rw [execute_fst_sendMessage]
    exact sendmessage_idle r now w a (by simpa [sendIdleFree] using h)
  | taskCreate a =>
    have : (ToolExecutor.execute r now w (.taskCreate a)).1.inboxes = w.inboxes := rfl
    rw [this]
    exact idlePreserved_refl _
  | taskUpdate a =>
    have hx : (ToolExecutor.execute r now w (.taskUpdate a)).1
        = (ToolExecutor.handle_TaskUpdate r w a).1 := by
      unfold ToolExecutor.execute
      cases hres : (ToolExecutor.handle_TaskUpdate r w a).2 with
      | ok v =>
        show (match ToolExecutor.handle_TaskUpdate r w a with
          | (w1, .ok v) => (w1, PyText.json v)
          | (w1, .error e) => (w1, .json (.obj [("error", .str e.msg)]))).1 = _
        rw [show ToolExecutor.handle_TaskUpdate r w a
          = ((ToolExecutor.handle_TaskUpdate r w a).1, .ok v) from by rw [← hres]]
      | error e =>
        show (match ToolExecutor.handle_TaskUpdate r w a with
          | (w1, .ok v) => (w1, PyText.json v)
          | (w1, .error e) => (w1, .json (.obj [("error", .str e.msg)]))).1 = _
        rw [show ToolExecutor.handle_TaskUpdate r w a
          = ((ToolExecutor.handle_TaskUpdate r w a).1, .error e) from by rw [← hres]]
    rw [hx, taskupdate_inboxes]
    exact idlePreserved_refl _
  | taskList =>
    exact idlePreserved_refl _
  | taskGet taskId =>
    have hx : (ToolExecutor.execute r now w (.taskGet taskId)).1.inboxes
        = w.inboxes := by
      unfold ToolExecutor.execute ToolExecutor.handle_TaskGet
      cases hres : TaskStore.get_task w.tasks taskId <;> simp [hres]
    rw [hx]
    exact idlePreserved_refl _
  | unknownTool n =>
    exact idlePreserved_refl _

/-- Running a list of idle-free tool calls preserves idle counts in every
inbox. -/
theorem run_tool_calls_idle (r : Runner) (now : String) :
    ∀ (tcs : List ToolCallReq) (acc : World × Bool),
      (∀ tc ∈ tcs, sendIdleFree tc = true) →
      IdlePreserved acc.1.inboxes
        ((AgentRunner.run_tool_calls r now acc tcs).1).inboxes := by
  intro tcs
  induction tcs with
  | nil => intro acc _; exact idlePreserved_refl _
  | cons tc rest ih =>
    intro acc h
    obtain ⟨w, stop⟩ := acc
    show IdlePreserved w.inboxes
      ((AgentRunner.run_tool_calls r now
        (((ToolExecutor.execute r now (w.emit "tool_call" r.agent_name)
          tc).1.emit "tool_result" r.agent_name),
         stop || AgentRunner.isShutdownSend tc) rest).1).inboxes
    refine idlePreserved_trans ?_ (ih _ (fun tc2 h2 => h tc2 (List.mem_cons_of_mem _ h2)))
    exact execute_idle r now (w.emit "tool_call" r.agent_name) tc
      (h tc (List.mem_cons_self tc rest))

/-- The tool loop preserves idle counts in every inbox for a benign provider
script. -/
theorem tool_loop_idle (r : Runner) (now : String) (script : ProviderScript)
    (hben : benignScript script) :
    ∀ (fuel lc : Nat) (stop : Bool) (fc : String) (w : World),
      IdlePreserved w.inboxes
        ((AgentRunner.tool_loop r now script fuel lc stop fc w).1).inboxes := by
  intro fuel
  induction fuel with
  | zero => intro lc stop fc w; exact idlePreserved_refl _
  | succ fuel ih =>
    intro lc stop fc w
    cases stop with
    | true => exact idlePreserved_refl _
    | false =>
      show IdlePreserved w.inboxes
        ((match script (lc + 1) with
          | .error _e =>
            ((w.emit "thinking" r.agent_name).emit "error" r.agent_name, lc + 1, fc)
          | .ok resp =>
            let w2 := if resp.content ≠ ""
              then (w.emit "thinking" r.agent_name).emit "agent_response" r.agent_name
              else w.emit "thinking" r.agent_name
            let fc2 := if resp.content ≠ "" then resp.content else fc
            if resp.toolCalls.isEmpty then (w2, lc + 1, fc2)
            else
              let out := AgentRunner.run_tool_calls r now (w2, false) resp.toolCalls
              AgentRunner.tool_loop r now script fuel (lc + 1) out.2 fc2 out.1).1).inboxes
      cases hs : script (lc + 1) with
      | error e => exact idlePreserved_refl _
      | ok resp =>
        dsimp only
        by_cases htc : resp.toolCalls.isEmpty
        · rw [if_pos htc]
          have he : ((if resp.content ≠ ""
              then (w.emit "thinking" r.agent_name).emit "agent_response" r.agent_name
              else w.emit "thinking" r.agent_name) : World).inboxes = w.inboxes := by
            split <;> rfl
          rw [he]
          exact idlePreserved_refl _
        · rw [if_neg htc]
          have hrun := run_tool_calls_idle r now resp.toolCalls
            ((if resp.content ≠ ""
              then (w.emit "thinking" r.agent_name).emit "agent_response" r.agent_name
              else w.emit "thinking" r.agent_name), false)
            (hben (lc + 1) resp hs)
          have hw2 : ((if resp.content ≠ ""
              then (w.emit "thinking" r.agent_name).emit "agent_response" r.agent_name
              else w.emit "thinking" r.agent_name) : World).inboxes = w.inboxes := by
            split <;> rfl
          rw [hw2] at hrun
          exact idlePreserved_trans hrun (ih _ _ _ _)

/-- With no unread `shutdown_request` in the inbox of the agent, the shutdown check
reports false and changes nothing. -/
theorem check_no_shutdown (r : Runner) (w : World)
    (h : noUnreadShutdown w r.agent_name) :
    AgentRunner.check_shutdown_request r w = (w, .ok false) := by
  unfold AgentRunner.check_shutdown_request
  have hfind : (InboxStore.read_all w.inboxes r.agent_name).find?
      (fun m => !m.read && isProtoType m.text "shutdown_request") = none := by
    apply List.find?_eq_none.mpr
    intro m hm
    rcases h m hm with hr | hp
    · simp [hr]
    · simp [hp]
  simp only [hfind]

/-- The inbox an `append_message` targeted, afterwards. -/
theorem append_message_self (ibs : Inboxes) (ag f : String) (t : PyText)
    (su : Option String) (c : Option String) (mt now : String) :
    (InboxStore.append_message ibs ag f t su c mt now).1 ag
      = ibs ag ++ [(InboxStore.append_message ibs ag f t su c mt now).2] := by
  show setInbox ibs ag (ibs ag ++
    [(InboxStore.append_message ibs ag f t su c mt now).2]) ag = _
  unfold setInbox
  simp

/-- C9: refutation of the claim as stated.  A provider whose tool call sends
the parent a plain direct message whose content is itself the JSON of an
`idle_notification` envelope makes the parent receive two new
`idle_notification` envelopes from the agent in one non-shutdown `run_turn`
(the crafted message plus the end-of-turn notification), not exactly one. -/
theorem C9_crafted_content_counterexample :
    countIdleFrom (wPlain.inboxes "lead") "worker" = 0 ∧
    countIdleFrom
      ((AgentRunner.run_turn rWorker "T1" craftedScript wPlain).1.inboxes "lead")
      "worker" = 2 := by
  exact ⟨rfl, rfl⟩

/-- C9 as amended: for every `run_turn` that is not a shutdown short-circuit
(no unread `shutdown_request`) and whose executed tool calls do not themselves
send message content parsing as an `idle_notification` envelope, the parent
(when present and distinct from the agent) receives exactly one new
`idle_notification` envelope from the agent, and with no such parent no
`idle_notification` envelope is appended to any inbox. -/
theorem C9_idle_notification_amended (r : Runner) (now : String)
    (script : ProviderScript) (w : World)
    (hshut : noUnreadShutdown w r.agent_name)
    (hben : benignScript script) :
    (∀ lead, r.lead_agent = some lead → lead ≠ r.agent_name →
      countIdleFrom ((AgentRunner.run_turn r now script w).1.inboxes lead)
          r.agent_name
        = countIdleFrom (w.inboxes lead) r.agent_name + 1) ∧
    ((r.lead_agent = none ∨ r.lead_agent = some r.agent_name) →
      ∀ a, countIdleAll ((AgentRunner.run_turn r now script w).1.inboxes a)
        = countIdleAll (w.inboxes a)) := by
  have hch := check_no_shutdown r w hshut
  have hpres : IdlePreserved w.inboxes
      ((AgentRunner.tool_loop r now script AgentRunner.MAX_TOOL_LOOPS 0 false ""
        ((ContextBuilder.build_messages_inbox (w.emit "turn_start" r.agent_name)
          r.agent_name).1)).1).inboxes :=
    idlePreserved_trans (idle_read_unread w.inboxes r.agent_name)
      (tool_loop_idle r now script hben AgentRunner.MAX_TOOL_LOOPS 0 false ""
        ((ContextBuilder.build_messages_inbox (w.emit "turn_start" r.agent_name)
          r.agent_name).1))
  constructor
  · intro lead hlead hne
    have key : ∀ ibsOUT : Inboxes, IdlePreserved w.inboxes ibsOUT →
        countIdleFrom ((InboxStore.append_message ibsOUT lead r.agent_name
          (ProtocolService.create_idle_notification r.agent_name "available" now).text
          (some (ProtocolService.create_idle_notification r.agent_name "available"
            now).summary) none "message" now).1 lead) r.agent_name
          = countIdleFrom (w.inboxes lead) r.agent_name + 1 := by
      intro ibsOUT hp
      rw [append_message_self]
      have hmsg := countIdleFrom_append_idle (ibsOUT lead)
        ((InboxStore.append_message ibsOUT lead r.agent_name
          (ProtocolService.create_idle_notification r.agent_name "available" now).text
          (some (ProtocolService.create_idle_notification r.agent_name "available"
            now).summary) none "message" now).2) r.agent_name rfl rfl
      rw [hmsg]
      exact congrArg (fun n => n + 1) (hp lead r.agent_name).1
    simp only [AgentRunner.run_turn, hch, hlead]
    rw [if_pos hne]
    exact key _ hpres
  · intro hl2 a
    rcases hl2 with hnone | hself
    · simp only [AgentRunner.run_turn, hch, hnone]
      exact (hpres a r.agent_name).2
    · simp only [AgentRunner.run_turn, hch, hself]
      rw [if_neg (show ¬(r.agent_name ≠ r.agent_name) from fun hx => hx rfl)]
      exact (hpres a r.agent_name).2

/-- Witness for the amended C9: a worker reporting to `lead`, an empty inbox,
a text-only provider — after the turn the lead has exactly one new
`idle_notification` envelope from the worker. -/
theorem C9_idle_notification_witness :
    countIdleFrom
      ((AgentRunner.run_turn rWorker "T1" textOnlyScript w0).1.inboxes "lead")
      "worker"
      = countIdleFrom (w0.inboxes "lead") "worker" + 1 := by
  have h1 : noUnreadShutdown w0 rWorker.agent_name := by
    intro m hm
    simp [w0] at hm
  have h2 : benignScript textOnlyScript := by
    intro n resp hr tc htc
    simp only [textOnlyScript] at hr
    cases hr
    simp at htc
  exact (C9_idle_notification_amended rWorker "T1" textOnlyScript w0 h1 h2).1
    "lead" rfl (by decide)
